import Mathlib

/-!
Shallow embedding of the vehicle-dynamics, traffic-light, world-scheduler and
map-loader code of the Korean driving-simulator repository, together with
theorems settling the specification's claims against it.

Numeric values are modelled as exact rationals.  Rendering plumbing (meshes,
materials, the 3D scene) is omitted throughout; only the state and control
flow that the claims speak about is embedded.
-/

/-- Exact rational value of the IEEE-754 double `Math.PI` that the source's
JavaScript arithmetic uses. -/
def mathPI : ℚ := 884279719003555 / 281474976710656

/-- JavaScript remainder `a % b` as used by the source: the only use site is
`timer % cycleDuration` with a nonnegative dividend and positive divisor,
where `%` agrees with flooring division. -/
def jsMod (a b : ℚ) : ℚ := a - b * (⌊a / b⌋ : ℤ)

/-- Transmission kind of a `VehicleSpec` (`'manual' | 'auto'`). -/
inductive TransmissionType
| manual
| auto
deriving DecidableEq

/-- Static per-model parameters, mirroring the source's `VehicleSpec`. -/
structure VehicleSpec where
  name : String
  brand : String
  model : String
  mass : ℚ
  length : ℚ
  width : ℚ
  height : ℚ
  wheelBase : ℚ
  trackWidth : ℚ
  maxPower : ℚ
  maxTorque : ℚ
  maxRPM : ℚ
  idleRPM : ℚ
  gearRatios : List ℚ
  finalDriveRatio : ℚ
  transmissionType : TransmissionType
  tireRadius : ℚ
  tireWidth : ℚ
  gripCoefficient : ℚ
  dragCoefficient : ℚ
  frontalArea : ℚ
  suspensionStiffness : ℚ
  suspensionDamping : ℚ
  suspensionTravel : ℚ
deriving DecidableEq

/-- The `'hyundai-sonata'` preset of `KOREAN_VEHICLES`. -/
def hyundaiSonata : VehicleSpec where
  name := "쏘나타"
  brand := "현대"
  model := "DN8"
  mass := 1515
  length := 4.900
  width := 1.860
  height := 1.445
  wheelBase := 2.840
  trackWidth := 1.610
  maxPower := 140
  maxTorque := 179
  maxRPM := 6500
  idleRPM := 800
  gearRatios := [-3.272, 4.212, 2.637, 1.800, 1.386, 1.000, 0.772]
  finalDriveRatio := 3.510
  transmissionType := .auto
  tireRadius := 0.340
  tireWidth := 235
  gripCoefficient := 1.0
  dragCoefficient := 0.27
  frontalArea := 2.25
  suspensionStiffness := 35000
  suspensionDamping := 4500
  suspensionTravel := 0.2

/-- The `'kia-ev6'` preset of `KOREAN_VEHICLES` (single-gear electric). -/
def kiaEV6 : VehicleSpec where
  name := "EV6"
  brand := "기아"
  model := "CV"
  mass := 2090
  length := 4.695
  width := 1.890
  height := 1.550
  wheelBase := 2.900
  trackWidth := 1.630
  maxPower := 168
  maxTorque := 350
  maxRPM := 10000
  idleRPM := 0
  gearRatios := [1]
  finalDriveRatio := 1
  transmissionType := .auto
  tireRadius := 0.360
  tireWidth := 255
  gripCoefficient := 1.05
  dragCoefficient := 0.28
  frontalArea := 2.38
  suspensionStiffness := 38000
  suspensionDamping := 4800
  suspensionTravel := 0.2

/-- Longitudinal projection of the source's mutable `VehicleState`: the fields
that feed back into the per-frame dynamics.  `position`, `rotation`,
`velocity` and `angularVelocity` are write-only outputs of `update` (they
never influence `speed`, `rpm` or `gear`) and their integration involves
`sin`/`cos` of the yaw angle, so they are omitted from the embedding. -/
structure VehicleState where
  rpm : ℚ
  gear : ℕ
  speed : ℚ
  throttle : ℚ
  brake : ℚ
  steering : ℚ
  handbrake : Bool
deriving DecidableEq

namespace Vehicle

/-- The state a `Vehicle` is constructed with: `rpm = idleRPM`, `gear = 1`,
everything else zeroed. -/
def initState (spec : VehicleSpec) : VehicleState where
  rpm := spec.idleRPM
  gear := 1
  speed := 0
  throttle := 0
  brake := 0
  steering := 0
  handbrake := false

/-- JS gear-ratio lookup `this.spec.gearRatios[this.state.gear] || 1`: an
out-of-range index (`undefined`) and the falsy ratio `0` both fall back
to `1`. -/
def gearRatioAt (spec : VehicleSpec) (gear : ℕ) : ℚ :=
  match spec.gearRatios.get? gear with
  | none => 1
  | some r => if r = 0 then 1 else r

/-- The source's `calculateEngineTorque`: three-segment piecewise-linear
torque curve scaled by throttle. -/
def calculateEngineTorque (spec : VehicleSpec) (s : VehicleState) : ℚ :=
  let rpmRatio := s.rpm / spec.maxRPM
  let torqueMultiplier : ℚ :=
    if rpmRatio < 0.3 then 0.6 + rpmRatio * 1.3
    else if rpmRatio < 0.7 then 1.0
    else 1.0 - (rpmRatio - 0.7) * 1.5
  spec.maxTorque * torqueMultiplier * s.throttle

/-- The source's `calculateWheelTorque`. -/
def calculateWheelTorque (spec : VehicleSpec) (s : VehicleState)
    (engineTorque : ℚ) : ℚ :=
  engineTorque * gearRatioAt spec s.gear * spec.finalDriveRatio

/-- The source's `calculateDragForce`. -/
def calculateDragForce (spec : VehicleSpec) (s : VehicleState) : ℚ :=
  let speedMs := s.speed / 3.6
  let airDensity : ℚ := 1.225
  0.5 * airDensity * spec.dragCoefficient * spec.frontalArea * speedMs * speedMs

/-- The source's `updateRPM`: recompute `rpm` from wheel speed and gearing,
clamped between `idleRPM` and `maxRPM`. -/
def updateRPM (spec : VehicleSpec) (s : VehicleState) : VehicleState :=
  let speedMs := s.speed / 3.6
  let wheelRPS := speedMs / (2 * mathPI * spec.tireRadius)
  let gearRatio := gearRatioAt spec s.gear
  let calculatedRPM := wheelRPS * 60 * gearRatio * spec.finalDriveRatio
  { s with rpm := max spec.idleRPM (min spec.maxRPM calculatedRPM) }

/-- The source's `autoShift`: upshift above `0.85 * maxRPM` when below the top
gear, downshift below `0.3 * maxRPM` when above gear 1. -/
def autoShift (spec : VehicleSpec) (s : VehicleState) : VehicleState :=
  let upshiftRPM := spec.maxRPM * 0.85
  let downshiftRPM := spec.maxRPM * 0.3
  let maxGear := spec.gearRatios.length - 1
  if s.rpm > upshiftRPM ∧ s.gear < maxGear then { s with gear := s.gear + 1 }
  else if s.rpm < downshiftRPM ∧ s.gear > 1 then { s with gear := s.gear - 1 }
  else s

/-- The source's `shiftUp`: increment `gear` unless already at the last index
of the gear table. -/
def shiftUp (spec : VehicleSpec) (s : VehicleState) : VehicleState :=
  if s.gear < spec.gearRatios.length - 1 then { s with gear := s.gear + 1 } else s

/-- The source's `shiftDown`: decrement `gear` unless already at 0. -/
def shiftDown (s : VehicleState) : VehicleState :=
  if s.gear > 0 then { s with gear := s.gear - 1 } else s

/-- One call of the source's `Vehicle.update` on the longitudinal state (the
mesh-present path; the trailing position/heading integration is omitted as
it writes only the fields this embedding projects away). -/
def update (spec : VehicleSpec) (deltaTime : ℚ) (s : VehicleState) : VehicleState :=
  let engineTorque := calculateEngineTorque spec s
  let wheelTorque := calculateWheelTorque spec s engineTorque
  let tractionForce := wheelTorque / spec.tireRadius
  let dragForce := calculateDragForce spec s
  let netForce := tractionForce - dragForce - (s.brake * spec.mass * 9.8 * 0.8)
  let acceleration := netForce / spec.mass
  let speedMs := s.speed / 3.6
  let newSpeedMs := max 0 (speedMs + acceleration * deltaTime)
  let s1 := { s with speed := newSpeedMs * 3.6 }
  let s2 := updateRPM spec s1
  if spec.transmissionType = TransmissionType.auto then autoShift spec s2 else s2

/-- The source's `setThrottle` (clamped to `[0, 1]`). -/
def setThrottle (s : VehicleState) (value : ℚ) : VehicleState :=
  { s with throttle := max 0 (min 1 value) }

/-- The source's `setBrake` (clamped to `[0, 1]`). -/
def setBrake (s : VehicleState) (value : ℚ) : VehicleState :=
  { s with brake := max 0 (min 1 value) }

/-- One operation of the manual/automatic driving interface: a manual
upshift request, a manual downshift request, or a physics update. -/
inductive Op
| shiftUpOp
| shiftDownOp
| updateOp (dt : ℚ)
deriving DecidableEq

/-- Apply one `Op` to the state. -/
def applyOp (spec : VehicleSpec) (op : Op) (s : VehicleState) : VehicleState :=
  match op with
  | .shiftUpOp => shiftUp spec s
  | .shiftDownOp => shiftDown s
  | .updateOp dt => update spec dt s

/-- Apply a sequence of operations from left to right. -/
def applyOps (spec : VehicleSpec) (ops : List Op) (s : VehicleState) : VehicleState :=
  ops.foldl (fun t op => applyOp spec op t) s

end Vehicle

/-- Phase of a traffic light (`'red' | 'yellow' | 'green'`). -/
inductive TrafficLightState
| red
| yellow
| green
deriving DecidableEq

/-- The source's `TRAFFIC_TIMING` constant. -/
structure TrafficTiming where
  green : ℚ
  yellow : ℚ
  red : ℚ
deriving DecidableEq

/-- Timing table `{ green: 30, yellow: 3, red: 33 }`. -/
def TRAFFIC_TIMING : TrafficTiming where
  green := 30
  yellow := 3
  red := 33

/-- A `TrafficLight` entity.  The world-position, controlled-direction vector
and the mesh handles are render/AI-proximity plumbing not touched by the
phase logic and are omitted. -/
structure TrafficLight where
  id : String
  state : TrafficLightState
  timer : ℚ
  greenDuration : ℚ
  yellowDuration : ℚ
  redDuration : ℚ
deriving DecidableEq

/-- A traffic light record as built in `createTrafficLight` but with
arbitrary durations; the source always instantiates it with
`TRAFFIC_TIMING` (see `createTrafficLightEntity`). -/
def mkTrafficLight (id : String) (timerOffset g y r : ℚ) : TrafficLight where
  id := id
  state := .red
  timer := timerOffset
  greenDuration := g
  yellowDuration := y
  redDuration := r

/-- The entity record built by the source's `createTrafficLight`: initial
state `'red'`, timer seeded with the offset, durations from
`TRAFFIC_TIMING`. -/
def createTrafficLightEntity (id : String) (timerOffset : ℚ) : TrafficLight :=
  mkTrafficLight id timerOffset TRAFFIC_TIMING.green TRAFFIC_TIMING.yellow
    TRAFFIC_TIMING.red

/-- One call of the source's `updateTrafficLight`: accumulate the timer and
recompute the phase from the wrapped cycle time (the mesh-colour update is
omitted; the source writes `state` only when it changed, which yields the
same state). -/
def updateTrafficLight (light : TrafficLight) (deltaTime : ℚ) : TrafficLight :=
  let timer := light.timer + deltaTime
  let cycleDuration := light.greenDuration + light.yellowDuration + light.redDuration
  let cycleTime := jsMod timer cycleDuration
  let newState : TrafficLightState :=
    if cycleTime < light.greenDuration then .green
    else if cycleTime < light.greenDuration + light.yellowDuration then .yellow
    else .red
  { light with timer := timer, state := newState }

/-- The phase that the transition rule of `updateTrafficLight` assigns to an
accumulated timer value `t`, for durations `g`, `y`, `r`. -/
def phaseAt (g y r t : ℚ) : TrafficLightState :=
  let c := jsMod t (g + y + r)
  if c < g then .green else if c < g + y then .yellow else .red

/-- A registered system as the scheduler sees it: its unique name (the map
key) and its numeric priority. -/
structure SystemRec where
  name : String
  priority : ℤ
deriving DecidableEq

/-- A registered entity as the scheduler sees it: id (the map key), type tag
and active flag. -/
structure EntityRec where
  id : String
  type : String
  active : Bool
deriving DecidableEq

/-- JS `Map.set` on a map represented as its insertion-ordered entry list:
replace in place if the key is present, else append. -/
def mapSet {α : Type} (key : α → String) (v : α) : List α → List α
  | [] => [v]
  | x :: xs => if key x = key v then v :: xs else x :: mapSet key v xs

/-- Scheduler state of the source's `GameWorld` (scene handle and event
subscriber table omitted; the per-frame behaviour the claims address does
not read them). -/
structure GameWorld where
  systems : List SystemRec
  entities : List EntityRec
  isPaused : Bool
  timeScale : ℚ
  gameTime : ℚ
deriving DecidableEq

/-- One dispatched call of a frame: a system update or an entity update. -/
inductive UpdateEvent
| sys (name : String)
| ent (id : String)
deriving DecidableEq

/-- Comparator relation of `Array.from(systems.values()).sort((a, b) =>
a.priority - b.priority)`. -/
def sysLE (a b : SystemRec) : Prop := a.priority ≤ b.priority

instance : DecidableRel sysLE := fun a b => inferInstanceAs (Decidable (a.priority ≤ b.priority))

instance : IsTotal SystemRec sysLE := ⟨fun a b => le_total a.priority b.priority⟩

instance : IsTrans SystemRec sysLE := ⟨fun _ _ _ h h' => le_trans h h'⟩

namespace GameWorld

/-- The source's `registerSystem`: `Map.set` keyed by system name. -/
def registerSystem (w : GameWorld) (s : SystemRec) : GameWorld :=
  { w with systems := mapSet (fun t => t.name) s w.systems }

/-- The source's `addEntity`: `Map.set` keyed by entity id (the
`entity:added` event emission is not modelled). -/
def addEntity (w : GameWorld) (e : EntityRec) : GameWorld :=
  { w with entities := mapSet (fun t => t.id) e w.entities }

/-- The source's `removeEntity`: dispose and delete by id (the
`entity:removed` event emission is not modelled). -/
def removeEntity (w : GameWorld) (id : String) : GameWorld :=
  { w with entities := w.entities.filter (fun e => e.id != id) }

/-- The systems in the order `GameWorld.update` runs them: a stable sort of
the registration order by ascending priority, which is what the JS
`Array.prototype.sort` with comparator `a.priority - b.priority`
produces. -/
def sortedSystems (w : GameWorld) : List SystemRec :=
  w.systems.insertionSort sysLE

/-- One call of the source's `GameWorld.update`: no-op when paused, else
scale the delta, accumulate the game clock, and dispatch every system
update in ascending priority order followed by every active entity
update.  The returned trace records the dispatched calls in order. -/
def update (w : GameWorld) (deltaTime : ℚ) : GameWorld × List UpdateEvent :=
  if w.isPaused then (w, [])
  else
    let scaledDelta := deltaTime * w.timeScale
    ({ w with gameTime := w.gameTime + scaledDelta },
      (sortedSystems w).map (fun s => UpdateEvent.sys s.name)
        ++ (w.entities.filter (fun e => e.active)).map (fun e => UpdateEvent.ent e.id))

end GameWorld

/-- An `AIVehicle` entity (mesh handle and the unused `path` fields omitted;
the vertical coordinate of `position` is constant `0.7`). -/
structure AIVehicle where
  id : String
  x : ℚ
  z : ℚ
  rotation : ℚ
  speed : ℚ
  maxSpeed : ℚ
  vehicleType : String
deriving DecidableEq

/-- State of the source's `TrafficSystem` together with the `GameWorld` it is
attached to: the two private registries, the spawn timer and cap. -/
structure TrafficSystemState where
  world : GameWorld
  trafficLights : List TrafficLight
  aiVehicles : List AIVehicle
  spawnTimer : ℚ
  maxAIVehicles : ℕ
deriving DecidableEq

namespace TrafficSystem

/-- The source's `TrafficSystem.createTrafficLight`: build the entity
(meshes omitted), `Map.set` it into the private `trafficLights` registry,
and register it with the world via `world.addEntity`. -/
def createTrafficLight (id : String) (timerOffset : ℚ)
    (ts : TrafficSystemState) : TrafficSystemState :=
  let light := createTrafficLightEntity id timerOffset
  { ts with
    trafficLights := mapSet (fun l => l.id) light ts.trafficLights
    world := ts.world.addEntity { id := id, type := "traffic_light", active := true } }

/-- The source's `spawnAIVehicle`.  The randomized id, edge position,
heading, speed and body type are supplied as the argument `v` (the source
draws them from `Math.random`); the registry effect is exactly the
source's: `this.aiVehicles.set(id, vehicle)` — and no `world.addEntity`
call. -/
def spawnAIVehicle (v : AIVehicle) (ts : TrafficSystemState) : TrafficSystemState :=
  { ts with aiVehicles := mapSet (fun u => u.id) v ts.aiVehicles }

/-- The `dispose` closure of a spawned AI vehicle: drop the mesh (omitted)
and delete the vehicle from the private `aiVehicles` registry. -/
def disposeAIVehicle (id : String) (ts : TrafficSystemState) : TrafficSystemState :=
  { ts with aiVehicles := ts.aiVehicles.filter (fun u => u.id != id) }

/-- The source's `getTrafficLightState`:
`this.trafficLights.get(id)?.state ?? null`. -/
def getTrafficLightState (ts : TrafficSystemState) (id : String) :
    Option TrafficLightState :=
  (ts.trafficLights.find? (fun l => l.id == id)).map (fun l => l.state)

end TrafficSystem

/-- One entry of the source's `KOREA_REGIONS` table. -/
structure Region where
  lat : ℚ
  lon : ℚ
  name : String
deriving DecidableEq

/-- The source's `KOREA_REGIONS` table, as an insertion-ordered key/value
list. -/
def KOREA_REGIONS : List (String × Region) :=
  [("seoul-gangnam", ⟨37.4979, 127.0276, "강남역"⟩),
   ("seoul-jamsil", ⟨37.5133, 127.1001, "잠실"⟩),
   ("seoul-hongdae", ⟨37.5563, 126.9236, "홍대"⟩),
   ("seoul-yeouido", ⟨37.5219, 126.9245, "여의도"⟩),
   ("seoul-gwanghwamun", ⟨37.5760, 126.9769, "광화문"⟩),
   ("yongin-suji", ⟨37.3219, 127.0886, "수지구"⟩),
   ("yongin-giheung", ⟨37.2750, 127.1159, "기흥구"⟩),
   ("yongin-cheoin", ⟨37.2343, 127.2012, "처인구"⟩),
   ("yongin-everland", ⟨37.2933, 127.2025, "에버랜드"⟩),
   ("busan-haeundae", ⟨35.1587, 129.1604, "해운대"⟩),
   ("incheon-songdo", ⟨37.3918, 126.6399, "송도"⟩),
   ("daejeon-dunsan", ⟨36.3520, 127.3780, "둔산동"⟩)]

/-- A point of the loader's coordinate space (`Vector3` restricted to the
data fields the loader produces). -/
structure Vec3 where
  x : ℚ
  y : ℚ
  z : ℚ
deriving DecidableEq

/-- Geographic bounding box as computed by `calculateBBox`. -/
structure BBox where
  minLat : ℚ
  maxLat : ℚ
  minLon : ℚ
  maxLon : ℚ
deriving DecidableEq

/-- Road category of a `RoadSegment`. -/
inductive RoadType
| highway
| primary
| secondary
| residential
| service
deriving DecidableEq

/-- The source's `RoadSegment` record. -/
structure RoadSegment where
  id : String
  name : String
  type : RoadType
  lanes : ℤ
  speedLimit : ℤ
  points : List Vec3
  width : ℚ
deriving DecidableEq

/-- The source's `Building` record. -/
structure Building where
  id : String
  name : Option String
  type : String
  position : Vec3
  width : ℚ
  depth : ℚ
  height : ℚ
deriving DecidableEq

/-- The source's `MapData` record. -/
structure MapData where
  region : String
  bounds : BBox
  roads : List RoadSegment
  buildings : List Building
deriving DecidableEq

/-- Tags of an OSM way, with the numeric tags (`lanes`, `maxspeed`,
`building:levels`) modelled as already-parsed integers. -/
structure OSMTags where
  highway : Option String
  building : Option String
  name : Option String
  lanes : Option ℤ
  maxspeed : Option ℤ
  buildingLevels : Option ℤ
deriving DecidableEq

/-- An element of an Overpass response body. -/
inductive OSMElement
| node (id : ℤ) (lat lon : ℚ)
| way (id : ℤ) (tags : OSMTags) (nodes : List ℤ)
deriving DecidableEq

/-- A parsed Overpass response body. -/
structure OSMData where
  elements : List OSMElement
deriving DecidableEq

namespace KoreaMapLoader

/-- The loader's fixed `metersPerDegLat` field. -/
def metersPerDegLat : ℚ := 111320

/-- The loader's fixed `metersPerDegLon` field. -/
def metersPerDegLon : ℚ := 88000

/-- The source's `calculateBBox`. -/
def calculateBBox (lat lon radiusMeters : ℚ) : BBox :=
  let latDelta := radiusMeters / metersPerDegLat
  let lonDelta := radiusMeters / metersPerDegLon
  { minLat := lat - latDelta, maxLat := lat + latDelta,
    minLon := lon - lonDelta, maxLon := lon + lonDelta }

/-- The source's `latLonToVector3`, with the origin passed explicitly (the
class stores it in `originLat`/`originLon` before parsing). -/
def latLonToVector3 (originLat originLon lat lon : ℚ) : Vec3 :=
  { x := (lon - originLon) * metersPerDegLon, y := 0,
    z := (lat - originLat) * metersPerDegLat }

/-- The source's `getRoadConfig` switch. -/
def getRoadConfig (highwayType : String) : RoadType × ℤ × ℤ × ℚ :=
  if highwayType = "motorway" ∨ highwayType = "trunk" then (.highway, 4, 100, 14)
  else if highwayType = "primary" then (.primary, 2, 60, 10)
  else if highwayType = "secondary" then (.secondary, 2, 50, 8)
  else if highwayType = "residential" then (.residential, 1, 30, 6)
  else (.service, 1, 20, 4)

/-- The source's `parseRoad` for a way already known to carry a `highway`
tag: resolve the node refs (silently skipping unknown ids), reject
degenerate ways with fewer than two points, and fill defaults from
`getRoadConfig`.  The JS `way.tags.name || highwayType` fallback also
replaces an empty name string (falsy in JS). -/
def parseRoad (originLat originLon : ℚ) (wayId : ℤ) (highwayType : String)
    (tags : OSMTags) (nodeIds : List ℤ)
    (nodes : List (ℤ × ℚ × ℚ)) : Option RoadSegment :=
  let points := nodeIds.filterMap fun nid =>
    (nodes.find? (fun p => p.1 == nid)).map fun p =>
      latLonToVector3 originLat originLon p.2.1 p.2.2
  if points.length < 2 then none
  else
    let config := getRoadConfig highwayType
    some
      { id := "road_" ++ toString wayId
        name := match tags.name with
                | some n => if n = "" then highwayType else n
                | none => highwayType
        type := config.1
        lanes := match tags.lanes with
                 | some n => n
                 | none => config.2.1
        speedLimit := match tags.maxspeed with
                      | some n => n
                      | none => config.2.2.1
        points := points
        width := config.2.2.2 }

/-- The source's `parseBuilding` for a way already known to carry a
`building` tag.  Returns the building (if the footprint has at least three
resolved points) together with the number of `Math.random()` draws
consumed: a building without a `building:levels` tag draws one random for
its height. -/
def parseBuilding (originLat originLon : ℚ) (wayId : ℤ) (buildingType : String)
    (tags : OSMTags) (nodeIds : List ℤ) (nodes : List (ℤ × ℚ × ℚ))
    (rand : ℕ → ℚ) (k : ℕ) : Option Building × ℕ :=
  let coords := nodeIds.filterMap fun nid =>
    (nodes.find? (fun p => p.1 == nid)).map fun p =>
      latLonToVector3 originLat originLon p.2.1 p.2.2
  match coords with
  | [] => (none, 0)
  | c0 :: rest =>
    if (c0 :: rest).length < 3 then (none, 0)
    else
      let minX := rest.foldl (fun m c => min m c.x) c0.x
      let maxX := rest.foldl (fun m c => max m c.x) c0.x
      let minZ := rest.foldl (fun m c => min m c.z) c0.z
      let maxZ := rest.foldl (fun m c => max m c.z) c0.z
      let width := maxX - minX
      let depth := maxZ - minZ
      let heightAndDraws : ℚ × ℕ :=
        match tags.buildingLevels with
        | some levels => ((levels : ℚ) * 3, 0)
        | none => (rand k * 20 + 10, 1)
      some
        { id := "building_" ++ toString wayId
          name := tags.name
          type := buildingType
          position := { x := (minX + maxX) / 2, y := heightAndDraws.1 / 2,
                        z := (minZ + maxZ) / 2 }
          width := width
          depth := depth
          height := heightAndDraws.1 } |> fun b => (b, heightAndDraws.2)

/-- The source's `parseOSMData`: index the nodes (later `Map.set` wins, so
the head of the cons-accumulated list is the most recent entry), then
fold over the ways, collecting roads for `highway`-tagged ways and
buildings for `building`-tagged ways.  The `Math.random()` stream consumed
by `parseBuilding` is threaded through as an explicit index. -/
def parseOSMData (osm : OSMData) (originLat originLon : ℚ) (regionKey : String)
    (bbox : BBox) (rand : ℕ → ℚ) : MapData :=
  let nodes : List (ℤ × ℚ × ℚ) := osm.elements.foldl
    (fun acc e => match e with
      | .node i la lo => (i, la, lo) :: acc
      | .way _ _ _ => acc) []
  let parsed : List RoadSegment × List Building × ℕ := osm.elements.foldl
    (fun acc e => match e with
      | .node _ _ _ => acc
      | .way wid tags nodeIds =>
        match tags.highway with
        | some h =>
          match parseRoad originLat originLon wid h tags nodeIds nodes with
          | some road => (acc.1 ++ [road], acc.2.1, acc.2.2)
          | none => acc
        | none =>
          match tags.building with
          | some b =>
            match parseBuilding originLat originLon wid b tags nodeIds nodes
                rand acc.2.2 with
            | (some building, draws) => (acc.1, acc.2.1 ++ [building], acc.2.2 + draws)
            | (none, _) => acc
          | none => acc) ([], [], 0)
  { region := regionKey, bounds := bbox, roads := parsed.1,
    buildings := parsed.2.1 }

/-- Grid coordinates `-2..2` of the test-map road loop. -/
def testRoadIndices : List ℤ := [-2, -1, 0, 1, 2]

/-- Grid coordinates `-4..4` of the test-map building loops. -/
def testBuildingIndices : List ℤ := [-4, -3, -2, -1, 0, 1, 2, 3, 4]

/-- The source's `generateTestMap`: a deterministic 5x5 grid of roads, and a
grid of buildings at the even coordinates whose height, width and depth
each consume one `Math.random()` draw (modelled as the stream `rand`,
consumed in source order: height, then width, then depth, building by
building). -/
def generateTestMap (regionKey : String) (bbox : BBox) (rand : ℕ → ℚ) : MapData :=
  let roads : List RoadSegment := (testRoadIndices.map fun i =>
    [{ id := "test_road_ew_" ++ toString i
       name := "테스트 도로 " ++ toString i
       type := RoadType.primary
       lanes := 2
       speedLimit := 50
       points := [⟨-500, 0, (i : ℚ) * 100⟩, ⟨500, 0, (i : ℚ) * 100⟩]
       width := 10 },
     { id := "test_road_ns_" ++ toString i
       name := "테스트 도로 " ++ toString i
       type := RoadType.secondary
       lanes := 2
       speedLimit := 40
       points := [⟨(i : ℚ) * 100, 0, -500⟩, ⟨(i : ℚ) * 100, 0, 500⟩]
       width := 8 }]).flatten
  let keptCells : List (ℤ × ℤ) := (testBuildingIndices.map fun x =>
    (testBuildingIndices.filterMap fun z =>
      if x.natAbs % 2 = 1 ∨ z.natAbs % 2 = 1 then none else some (x, z))).flatten
  let buildings : List Building := keptCells.enum.map fun kc =>
    let k := kc.1
    let x := kc.2.1
    let z := kc.2.2
    let height := rand (3 * k) * 30 + 15
    { id := "test_building_" ++ toString x ++ "_" ++ toString z
      name := some ("건물 " ++ toString x ++ "," ++ toString z)
      type := "commercial"
      position := ⟨(x : ℚ) * 100 + 50, height / 2, (z : ℚ) * 100 + 50⟩
      width := 40 + rand (3 * k + 1) * 20
      depth := 40 + rand (3 * k + 2) * 20
      height := height }
  { region := regionKey, bounds := bbox, roads := roads, buildings := buildings }

/-- Body of an Overpass HTTP response: either `response.json()` rejects, or
it yields parsed data. -/
inductive JsonBody
| malformed
| parsed (osm : OSMData)
deriving DecidableEq

/-- Outcome of the `fetch` call in `loadRegion`: the promise rejects, or a
response arrives with its `ok` flag, status code and body. -/
inductive FetchResult
| rejected
| response (ok : Bool) (status : ℕ) (body : JsonBody)
deriving DecidableEq

/-- Failure predicate of a fetch outcome: rejection, non-OK response, or a
body that does not parse. -/
def FetchResult.failed : FetchResult → Bool
| .rejected => true
| .response false _ _ => true
| .response true _ .malformed => true
| .response true _ (.parsed _) => false

/-- The source's `loadRegion`.  `Except` models the promise's rejection
channel; the `Bool` paired with a successful result records whether the
fallback warning was logged.  An unknown region key throws before the
`try` block; inside the `try`, a fetch rejection, a non-OK status (the
explicit `throw`) and a `response.json()` rejection are all caught and
answered with `generateTestMap` plus a logged warning. -/
def loadRegion (regionKey : String) (radius : ℚ) (fetch : FetchResult)
    (rand : ℕ → ℚ) : Except String (MapData × Bool) :=
  match KOREA_REGIONS.find? (fun p => p.1 == regionKey) with
  | none => .error ("Unknown region: " ++ regionKey)
  | some entry =>
    let region := entry.2
    let bbox := calculateBBox region.lat region.lon radius
    match fetch with
    | .rejected => .ok (generateTestMap regionKey bbox rand, true)
    | .response ok _ body =>
      if ok = false then .ok (generateTestMap regionKey bbox rand, true)
      else
        match body with
        | .malformed => .ok (generateTestMap regionKey bbox rand, true)
        | .parsed osm =>
          .ok (parseOSMData osm region.lat region.lon regionKey bbox rand, false)

end KoreaMapLoader

namespace Vehicle

theorem updateRPM_speed (spec : VehicleSpec) (s : VehicleState) :
    (updateRPM spec s).speed = s.speed := rfl

theorem updateRPM_gear (spec : VehicleSpec) (s : VehicleState) :
    (updateRPM spec s).gear = s.gear := rfl

theorem updateRPM_throttle (spec : VehicleSpec) (s : VehicleState) :
    (updateRPM spec s).throttle = s.throttle := rfl

theorem updateRPM_brake (spec : VehicleSpec) (s : VehicleState) :
    (updateRPM spec s).brake = s.brake := rfl

theorem autoShift_rpm (spec : VehicleSpec) (s : VehicleState) :
    (autoShift spec s).rpm = s.rpm := by
  simp only [autoShift]
  split
  · rfl
  · split <;> rfl

theorem autoShift_speed (spec : VehicleSpec) (s : VehicleState) :
    (autoShift spec s).speed = s.speed := by
  simp only [autoShift]
  split
  · rfl
  · split <;> rfl

theorem autoShift_throttle (spec : VehicleSpec) (s : VehicleState) :
    (autoShift spec s).throttle = s.throttle := by
  simp only [autoShift]
  split
  · rfl
  · split <;> rfl

theorem autoShift_brake (spec : VehicleSpec) (s : VehicleState) :
    (autoShift spec s).brake = s.brake := by
  simp only [autoShift]
  split
  · rfl
  · split <;> rfl

theorem autoShift_gear_ge_one (spec : VehicleSpec) (s : VehicleState)
    (h : 1 ≤ s.gear) : 1 ≤ (autoShift spec s).gear := by
  simp only [autoShift]
  split
  · exact Nat.le_succ_of_le h
  · split
    · next hdown => have h2 := hdown.2; simp only; omega
    · exact h

theorem update_speed (spec : VehicleSpec) (dt : ℚ) (s : VehicleState) :
    (update spec dt s).speed =
      max 0 (s.speed / 3.6 +
        (calculateWheelTorque spec s (calculateEngineTorque spec s) / spec.tireRadius
          - calculateDragForce spec s - s.brake * spec.mass * 9.8 * 0.8)
          / spec.mass * dt) * 3.6 := by
  simp only [update]
  split
  · rw [autoShift_speed, updateRPM_speed]
  · rw [updateRPM_speed]

theorem update_throttle (spec : VehicleSpec) (dt : ℚ) (s : VehicleState) :
    (update spec dt s).throttle = s.throttle := by
  simp only [update]
  split
  · rw [autoShift_throttle, updateRPM_throttle]
  · rw [updateRPM_throttle]

theorem update_brake (spec : VehicleSpec) (dt : ℚ) (s : VehicleState) :
    (update spec dt s).brake = s.brake := by
  simp only [update]
  split
  · rw [autoShift_brake, updateRPM_brake]
  · rw [updateRPM_brake]

theorem update_gear_ge_one (spec : VehicleSpec) (dt : ℚ) (s : VehicleState)
    (h : 1 ≤ s.gear) : 1 ≤ (update spec dt s).gear := by
  simp only [update]
  split
  · exact autoShift_gear_ge_one spec _ (by rw [updateRPM_gear]; exact h)
  · rw [updateRPM_gear]; exact h

theorem shiftUp_gear_ge_one (spec : VehicleSpec) (s : VehicleState)
    (h : 1 ≤ s.gear) : 1 ≤ (shiftUp spec s).gear := by
  simp only [shiftUp]
  split
  · exact Nat.le_succ_of_le h
  · exact h

theorem update_speed_nonneg (spec : VehicleSpec) (dt : ℚ) (s : VehicleState) :
    0 ≤ (update spec dt s).speed := by
  rw [update_speed]
  exact mul_nonneg (le_max_left _ _) (by norm_num)

end Vehicle

/-- C1: for every vehicle state (any speed, any gear index) and every update
step, the rpm written by the RPM-recompute step of `Vehicle.update` — and
hence the rpm after every `update` call — lies in `[idleRPM, maxRPM]`,
provided the spec satisfies `idleRPM ≤ maxRPM` (true of every preset). -/
theorem c1_rpm_always_clamped (spec : VehicleSpec) (s : VehicleState) (dt : ℚ)
    (h : spec.idleRPM ≤ spec.maxRPM) :
    spec.idleRPM ≤ (Vehicle.update spec dt s).rpm ∧
      (Vehicle.update spec dt s).rpm ≤ spec.maxRPM ∧
      spec.idleRPM ≤ (Vehicle.updateRPM spec s).rpm ∧
      (Vehicle.updateRPM spec s).rpm ≤ spec.maxRPM := by
  have hbase : ∀ t : VehicleState, spec.idleRPM ≤ (Vehicle.updateRPM spec t).rpm ∧
      (Vehicle.updateRPM spec t).rpm ≤ spec.maxRPM := by
    intro t
    simp only [Vehicle.updateRPM]
    exact ⟨le_max_left _ _, max_le h (min_le_left _ _)⟩
  have hupd : spec.idleRPM ≤ (Vehicle.update spec dt s).rpm ∧
      (Vehicle.update spec dt s).rpm ≤ spec.maxRPM := by
    simp only [Vehicle.update]
    split
    · rw [Vehicle.autoShift_rpm]; exact hbase _
    · exact hbase _
  exact ⟨hupd.1, hupd.2, (hbase s).1, (hbase s).2⟩

/-- Witness for C1 at the Sonata preset: one update from the initial state. -/
theorem c1_witness :
    hyundaiSonata.idleRPM ≤ hyundaiSonata.maxRPM ∧
      hyundaiSonata.idleRPM ≤
        (Vehicle.update hyundaiSonata 1 (Vehicle.initState hyundaiSonata)).rpm ∧
      (Vehicle.update hyundaiSonata 1 (Vehicle.initState hyundaiSonata)).rpm ≤
        hyundaiSonata.maxRPM :=
  ⟨by decide,
   (c1_rpm_always_clamped hyundaiSonata (Vehicle.initState hyundaiSonata) 1 (by decide)).1,
   (c1_rpm_always_clamped hyundaiSonata (Vehicle.initState hyundaiSonata) 1 (by decide)).2.1⟩

/-- C8: for a gear in `[1, lastGearIndex]`, `shiftUp` after `shiftDown`
returns to the original gear; at the table boundaries the corresponding
operation is a no-op (clamped, not wrapped): `shiftDown` at gear 0 and
`shiftUp` at the last gear index leave the state unchanged. -/
theorem c8_shift_round_trip (spec : VehicleSpec) (s : VehicleState)
    (h1 : 1 ≤ s.gear) (h2 : s.gear ≤ spec.gearRatios.length - 1) :
    (Vehicle.shiftUp spec (Vehicle.shiftDown s)).gear = s.gear ∧
      (∀ t : VehicleState, t.gear = 0 → Vehicle.shiftDown t = t) ∧
      (∀ t : VehicleState, t.gear = spec.gearRatios.length - 1 →
        Vehicle.shiftUp spec t = t) := by
  refine ⟨?_, ?_, ?_⟩
  · have hdown : Vehicle.shiftDown s = { s with gear := s.gear - 1 } := by
      unfold Vehicle.shiftDown
      rw [if_pos (by omega)]
    rw [hdown]
    unfold Vehicle.shiftUp
    rw [if_pos (by simp only; omega)]
    simp only
    omega
  · intro t ht
    unfold Vehicle.shiftDown
    rw [if_neg (by omega)]
  · intro t ht
    unfold Vehicle.shiftUp
    rw [if_neg (by omega)]

/-- Witness for C8 at the Sonata preset in gear 3. -/
theorem c8_witness :
    (Vehicle.shiftUp hyundaiSonata
      (Vehicle.shiftDown { Vehicle.initState hyundaiSonata with gear := 3 })).gear = 3 :=
  (c8_shift_round_trip hyundaiSonata { Vehicle.initState hyundaiSonata with gear := 3 }
    (by decide) (by decide)).1

/-- Counterexample to C3: from the initial gear 1, a single manual
`shiftDown` reaches reverse gear 0 — the source clamps `shiftDown` at
gear 0, not gear 1, so `gear ≥ 1` does not survive every sequence of
shift and update calls. -/
theorem c3_counterexample :
    ¬ 1 ≤ (Vehicle.shiftDown (Vehicle.initState hyundaiSonata)).gear := by decide

/-- C3 as amended: automatic shifting never selects gear 0 (`autoShift`
floors at gear 1), so starting from the initial gear 1, `gear ≥ 1` holds
after every sequence of `shiftUp`, `autoShift` and `update` calls; only
manual `shiftDown` (clamped at 0, not 1) can enter reverse. -/
theorem c3_amended_reverse_only_by_manual_shiftDown (spec : VehicleSpec)
    (ops : List Vehicle.Op) (h : Vehicle.Op.shiftDownOp ∉ ops) :
    1 ≤ (Vehicle.applyOps spec ops (Vehicle.initState spec)).gear ∧
      ∀ t : VehicleState, 1 ≤ t.gear → 1 ≤ (Vehicle.autoShift spec t).gear := by
  refine ⟨?_, fun t ht => Vehicle.autoShift_gear_ge_one spec t ht⟩
  have key : ∀ (l : List Vehicle.Op) (t : VehicleState), Vehicle.Op.shiftDownOp ∉ l →
      1 ≤ t.gear → 1 ≤ (Vehicle.applyOps spec l t).gear := by
    intro l
    induction l with
    | nil => intro t _ ht; exact ht
    | cons op rest ih =>
      intro t hmem ht
      have hop : op ≠ Vehicle.Op.shiftDownOp := fun he => hmem (he ▸ List.mem_cons_self _ _)
      have hrest : Vehicle.Op.shiftDownOp ∉ rest := fun hm => hmem (List.mem_cons_of_mem _ hm)
      show 1 ≤ (Vehicle.applyOps spec rest (Vehicle.applyOp spec op t)).gear
      refine ih _ hrest ?_
      cases op with
      | shiftUpOp => exact Vehicle.shiftUp_gear_ge_one spec t ht
      | shiftDownOp => exact absurd rfl hop
      | updateOp dt => exact Vehicle.update_gear_ge_one spec dt t ht
  exact key ops (Vehicle.initState spec) h (le_refl 1)

/-- Witness for the amended C3: an upshift followed by an update, on the
Sonata preset. -/
theorem c3_amended_witness :
    1 ≤ (Vehicle.applyOps hyundaiSonata [Vehicle.Op.shiftUpOp, Vehicle.Op.updateOp 1]
      (Vehicle.initState hyundaiSonata)).gear :=
  (c3_amended_reverse_only_by_manual_shiftDown hyundaiSonata
    [Vehicle.Op.shiftUpOp, Vehicle.Op.updateOp 1] (by decide)).1

namespace Vehicle

theorem calculateEngineTorque_coast (spec : VehicleSpec) (s : VehicleState)
    (hth : s.throttle = 0) : calculateEngineTorque spec s = 0 := by
  simp [calculateEngineTorque, hth]

theorem calculateDragForce_nonneg (spec : VehicleSpec) (s : VehicleState)
    (hcd : 0 ≤ spec.dragCoefficient) (hA : 0 ≤ spec.frontalArea) :
    0 ≤ calculateDragForce spec s := by
  simp only [calculateDragForce]
  have h1 : (0:ℚ) ≤ 0.5 * 1.225 * spec.dragCoefficient * spec.frontalArea :=
    mul_nonneg (mul_nonneg (by norm_num) hcd) hA
  calc (0:ℚ) ≤ (0.5 * 1.225 * spec.dragCoefficient * spec.frontalArea)
      * ((s.speed / 3.6) * (s.speed / 3.6)) := mul_nonneg h1 (mul_self_nonneg _)
    _ = 0.5 * 1.225 * spec.dragCoefficient * spec.frontalArea
      * (s.speed / 3.6) * (s.speed / 3.6) := by ring

theorem coast_speed_step (spec : VehicleSpec) (dt : ℚ) (s : VehicleState)
    (hm : 0 < spec.mass) (hcd : 0 ≤ spec.dragCoefficient) (hA : 0 ≤ spec.frontalArea)
    (hdt : 0 ≤ dt) (hth : s.throttle = 0) (hbr : s.brake = 1) :
    (update spec dt s).speed ≤ max 0 (s.speed - 28.224 * dt) := by
  rw [update_speed]
  have htr : calculateWheelTorque spec s (calculateEngineTorque spec s)
      / spec.tireRadius = 0 := by
    rw [calculateEngineTorque_coast spec s hth]
    simp [calculateWheelTorque]
  rw [htr, hbr]
  have hdrag := calculateDragForce_nonneg spec s hcd hA
  have haccel : (0 - calculateDragForce spec s - 1 * spec.mass * 9.8 * 0.8)
      / spec.mass ≤ -7.84 := by
    rw [div_le_iff₀ hm]
    linarith
  have hstep : s.speed / 3.6 +
      (0 - calculateDragForce spec s - 1 * spec.mass * 9.8 * 0.8) / spec.mass * dt
      ≤ s.speed / 3.6 - 7.84 * dt := by
    have hmul := mul_le_mul_of_nonneg_right haccel hdt
    linarith
  calc max 0 (s.speed / 3.6 +
        (0 - calculateDragForce spec s - 1 * spec.mass * 9.8 * 0.8) / spec.mass * dt) * 3.6
      ≤ max 0 (s.speed / 3.6 - 7.84 * dt) * 3.6 :=
        mul_le_mul_of_nonneg_right (max_le_max le_rfl hstep) (by norm_num)
    _ = max 0 (s.speed - 28.224 * dt) := by
        rw [max_mul_of_nonneg _ _ (by norm_num : (0:ℚ) ≤ 3.6)]
        congr 1
        · norm_num
        · ring

theorem coast_iterate_inputs (spec : VehicleSpec) (dt : ℚ) (s : VehicleState) :
    ∀ n : ℕ, ((update spec dt)^[n] s).throttle = s.throttle ∧
      ((update spec dt)^[n] s).brake = s.brake := by
  intro n
  induction n with
  | zero => exact ⟨rfl, rfl⟩
  | succ n ih =>
    rw [Function.iterate_succ_apply']
    exact ⟨(update_throttle _ _ _).trans ih.1, (update_brake _ _ _).trans ih.2⟩

theorem coast_iterate_nonneg (spec : VehicleSpec) (dt : ℚ) (s : VehicleState)
    (hs : 0 ≤ s.speed) : ∀ n : ℕ, 0 ≤ ((update spec dt)^[n] s).speed
  | 0 => hs
  | (n + 1) => by
    rw [Function.iterate_succ_apply']
    exact update_speed_nonneg _ _ _

theorem max_zero_sub_max_zero (a c : ℚ) (hc : 0 ≤ c) :
    max 0 (max 0 a - c) = max 0 (a - c) := by
  rcases le_total a 0 with h | h
  · rw [max_eq_left h, max_eq_left (by linarith), max_eq_left (by linarith)]
  · rw [max_eq_right h]

theorem coast_invariant (spec : VehicleSpec) (dt : ℚ) (s : VehicleState)
    (hm : 0 < spec.mass) (hcd : 0 ≤ spec.dragCoefficient) (hA : 0 ≤ spec.frontalArea)
    (hdt : 0 ≤ dt) (hth : s.throttle = 0) (hbr : s.brake = 1) :
    ∀ n : ℕ, ((update spec dt)^[n] s).speed ≤ max 0 (s.speed - n * (28.224 * dt)) := by
  intro n
  induction n with
  | zero =>
    have h := le_max_right (0:ℚ) s.speed
    simp only [Function.iterate_zero_apply, Nat.cast_zero, zero_mul, sub_zero]
    exact h
  | succ n ih =>
    rw [Function.iterate_succ_apply']
    have hio := coast_iterate_inputs spec dt s n
    have hstep := coast_speed_step spec dt ((update spec dt)^[n] s) hm hcd hA hdt
      (hio.1.trans hth) (hio.2.trans hbr)
    refine hstep.trans ?_
    have hmono : max 0 (((update spec dt)^[n] s).speed - 28.224 * dt)
        ≤ max 0 (max 0 (s.speed - n * (28.224 * dt)) - 28.224 * dt) :=
      max_le_max le_rfl (sub_le_sub_right ih _)
    refine hmono.trans (le_of_eq ?_)
    rw [max_zero_sub_max_zero _ _ (by positivity)]
    congr 1
    push_cast
    ring

end Vehicle

/-- C2: under sustained full braking with zero throttle (and a positive-mass
spec with nonnegative aero parameters, true of every preset), speed never
goes negative after any update under any inputs, decreases monotonically
(strictly while positive), and reaches exactly 0 after finitely many
updates and stays there. -/
theorem c2_full_brake_stops (spec : VehicleSpec) (s : VehicleState) (dt : ℚ)
    (hm : 0 < spec.mass) (hcd : 0 ≤ spec.dragCoefficient) (hA : 0 ≤ spec.frontalArea)
    (hdt : 0 < dt) (hth : s.throttle = 0) (hbr : s.brake = 1) (hs : 0 ≤ s.speed) :
    (∀ (spec2 : VehicleSpec) (d : ℚ) (t : VehicleState),
        0 ≤ (Vehicle.update spec2 d t).speed) ∧
      (∀ n : ℕ, ((Vehicle.update spec dt)^[n + 1] s).speed
        ≤ ((Vehicle.update spec dt)^[n] s).speed) ∧
      (∀ n : ℕ, 0 < ((Vehicle.update spec dt)^[n] s).speed →
        ((Vehicle.update spec dt)^[n + 1] s).speed
          < ((Vehicle.update spec dt)^[n] s).speed) ∧
      ∃ N : ℕ, ∀ m : ℕ, N ≤ m → ((Vehicle.update spec dt)^[m] s).speed = 0 := by
  have hc : (0:ℚ) < 28.224 * dt := by positivity
  have hstepAt : ∀ n : ℕ, ((Vehicle.update spec dt)^[n + 1] s).speed
      ≤ max 0 (((Vehicle.update spec dt)^[n] s).speed - 28.224 * dt) := by
    intro n
    rw [Function.iterate_succ_apply']
    have hio := Vehicle.coast_iterate_inputs spec dt s n
    exact Vehicle.coast_speed_step spec dt _ hm hcd hA hdt.le
      (hio.1.trans hth) (hio.2.trans hbr)
  refine ⟨fun spec2 d t => Vehicle.update_speed_nonneg spec2 d t, ?_, ?_, ?_⟩
  · intro n
    refine (hstepAt n).trans ?_
    have hnn := Vehicle.coast_iterate_nonneg spec dt s hs n
    calc max 0 (((Vehicle.update spec dt)^[n] s).speed - 28.224 * dt)
        ≤ max 0 ((Vehicle.update spec dt)^[n] s).speed :=
          max_le_max le_rfl (by linarith)
      _ = ((Vehicle.update spec dt)^[n] s).speed := max_eq_right hnn
  · intro n hpos
    exact lt_of_le_of_lt (hstepAt n) (max_lt hpos (sub_lt_self _ hc))
  · obtain ⟨N, hN⟩ := exists_nat_ge (s.speed / (28.224 * dt))
    have hzeroN : ((Vehicle.update spec dt)^[N] s).speed = 0 := by
      have hinv := Vehicle.coast_invariant spec dt s hm hcd hA hdt.le hth hbr N
      rw [div_le_iff₀ hc] at hN
      have hle : s.speed - N * (28.224 * dt) ≤ 0 := by linarith
      have hup : ((Vehicle.update spec dt)^[N] s).speed ≤ 0 := by
        rw [max_eq_left hle] at hinv
        exact hinv
      exact le_antisymm hup (Vehicle.coast_iterate_nonneg spec dt s hs N)
    refine ⟨N, fun m hm2 => ?_⟩
    induction m, hm2 using Nat.le_induction with
    | base => exact hzeroN
    | succ m _ ih =>
      have hstep := hstepAt m
      rw [ih] at hstep
      have h0 : max (0:ℚ) (0 - 28.224 * dt) = 0 := max_eq_left (by linarith)
      rw [h0] at hstep
      exact le_antisymm hstep (Vehicle.coast_iterate_nonneg spec dt s hs (m + 1))

/-- Witness for C2: the Sonata preset from 100 km/h with full brake, zero
throttle, one-second steps. -/
theorem c2_witness :
    ∃ N : ℕ, ∀ m : ℕ, N ≤ m →
      ((Vehicle.update hyundaiSonata 1)^[m]
        { Vehicle.initState hyundaiSonata with speed := 100, brake := 1 }).speed = 0 :=
  (c2_full_brake_stops hyundaiSonata
    { Vehicle.initState hyundaiSonata with speed := 100, brake := 1 } 1
    (by decide) (by norm_num [hyundaiSonata]) (by norm_num [hyundaiSonata]) (by decide)
    rfl rfl (by decide)).2.2.2

theorem jsMod_bounds (a b : ℚ) (hb : 0 < b) : 0 ≤ jsMod a b ∧ jsMod a b < b := by
  have hbne : b ≠ 0 := ne_of_gt hb
  have hrw : jsMod a b = b * Int.fract (a / b) := by
    unfold jsMod Int.fract
    field_simp
  constructor
  · rw [hrw]
    exact mul_nonneg hb.le (Int.fract_nonneg _)
  · rw [hrw]
    calc b * Int.fract (a / b) < b * 1 :=
        (mul_lt_mul_left hb).mpr (Int.fract_lt_one _)
      _ = b := mul_one b

theorem jsMod_decomp (a b : ℚ) : ∃ k : ℤ, a = b * k + jsMod a b :=
  ⟨⌊a / b⌋, by unfold jsMod; ring⟩

theorem jsMod_eq_of (a b r : ℚ) (k : ℤ) (hb : 0 < b) (h0 : 0 ≤ r) (hr : r < b)
    (hk : a = b * k + r) : jsMod a b = r := by
  have hbne : b ≠ 0 := ne_of_gt hb
  have hdiv : a / b = (k : ℚ) + r / b := by
    rw [hk]
    field_simp
    ring
  have hfr : ⌊r / b⌋ = 0 := by
    rw [Int.floor_eq_zero_iff]
    constructor
    · exact div_nonneg h0 hb.le
    · exact (div_lt_one hb).mpr hr
  have hfloor : ⌊a / b⌋ = k := by
    rw [hdiv, Int.floor_int_add, hfr, add_zero]
  unfold jsMod
  rw [hfloor, hk]
  ring

theorem jsMod_add_cases (x d b : ℚ) (hb : 0 < b) (hd : 0 ≤ d) (hdb : d < b) :
    (jsMod x b + d < b ∧ jsMod (x + d) b = jsMod x b + d) ∨
      (b ≤ jsMod x b + d ∧ jsMod (x + d) b = jsMod x b + d - b) := by
  obtain ⟨k, hk⟩ := jsMod_decomp x b
  obtain ⟨h0u, hub⟩ := jsMod_bounds x b hb
  by_cases h : jsMod x b + d < b
  · left
    refine ⟨h, jsMod_eq_of _ _ _ k hb (by linarith) h ?_⟩
    linarith
  · right
    push_neg at h
    refine ⟨h, jsMod_eq_of _ _ _ (k + 1) hb (by linarith) (by linarith) ?_⟩
    push_cast
    linarith

theorem phaseAt_green_iff (g y r t : ℚ) :
    phaseAt g y r t = TrafficLightState.green ↔ jsMod t (g + y + r) < g := by
  simp only [phaseAt]
  split_ifs with h1 h2
  · simp [h1]
  · simp [h1]
  · simp [h1]

theorem phaseAt_red_iff (g y r t : ℚ) :
    phaseAt g y r t = TrafficLightState.red ↔
      ¬ jsMod t (g + y + r) < g ∧ ¬ jsMod t (g + y + r) < g + y := by
  simp only [phaseAt]
  split_ifs with h1 h2
  · simp [h1]
  · simp [h1, h2]
  · simp [h1, h2]

theorem updateTrafficLight_state (light : TrafficLight) (dt : ℚ) :
    (updateTrafficLight light dt).state =
      phaseAt light.greenDuration light.yellowDuration light.redDuration
        (light.timer + dt) := rfl

theorem updateTrafficLight_timer (light : TrafficLight) (dt : ℚ) :
    (updateTrafficLight light dt).timer = light.timer + dt := rfl

theorem updateTrafficLight_greenDuration (light : TrafficLight) (dt : ℚ) :
    (updateTrafficLight light dt).greenDuration = light.greenDuration := rfl

theorem updateTrafficLight_yellowDuration (light : TrafficLight) (dt : ℚ) :
    (updateTrafficLight light dt).yellowDuration = light.yellowDuration := rfl

theorem updateTrafficLight_redDuration (light : TrafficLight) (dt : ℚ) :
    (updateTrafficLight light dt).redDuration = light.redDuration := rfl

theorem foldl_updateTrafficLight_state (light : TrafficLight) (d : ℚ) (ds : List ℚ) :
    ((d :: ds).foldl updateTrafficLight light).state =
      phaseAt light.greenDuration light.yellowDuration light.redDuration
        (light.timer + (d :: ds).sum) := by
  induction ds generalizing light d with
  | nil =>
    rw [List.foldl_cons, List.foldl_nil, updateTrafficLight_state]
    simp
  | cons e es ih =>
    have step := ih (updateTrafficLight light d) e
    rw [List.foldl_cons]
    rw [step, updateTrafficLight_greenDuration, updateTrafficLight_yellowDuration,
      updateTrafficLight_redDuration, updateTrafficLight_timer]
    congr 1
    simp only [List.sum_cons]
    ring

/-- C4: after any nonempty sequence of `updateTrafficLight` calls, the phase
of a traffic light is the pure function of `timerOffset + elapsed` given
by the wrap-around transition rule (`phaseAt`); at the default timings
with offset 0, the state after a total elapsed time of 29.9 s is green,
31 s yellow, 40 s red, and 66.1 s green again. -/
theorem c4_phase_is_pure_function_of_elapsed (light : TrafficLight) (d : ℚ)
    (ds : List ℚ) :
    ((d :: ds).foldl updateTrafficLight light).state =
      phaseAt light.greenDuration light.yellowDuration light.redDuration
        (light.timer + (d :: ds).sum) ∧
      phaseAt 30 3 33 29.9 = TrafficLightState.green ∧
      phaseAt 30 3 33 31 = TrafficLightState.yellow ∧
      phaseAt 30 3 33 40 = TrafficLightState.red ∧
      phaseAt 30 3 33 66.1 = TrafficLightState.green :=
  ⟨foldl_updateTrafficLight_state light d ds,
   by norm_num [phaseAt, jsMod],
   by norm_num [phaseAt, jsMod],
   by norm_num [phaseAt, jsMod],
   by norm_num [phaseAt, jsMod]⟩

/-- Counterexample to C5: the two lights of intersection 0 (offsets 0 and
`green + yellow = 33`), both updated once with `dt = 31`, are yellow and
red: the second light is red or yellow while the first is not green, so
the phases are not exact complements ("one is green exactly when the
other is red or yellow" fails). -/
theorem c5_counterexample :
    ¬ (((updateTrafficLight (createTrafficLightEntity "light_0_ew" 0) 31).state
          = TrafficLightState.green) ↔
        ((updateTrafficLight (createTrafficLightEntity "light_0_ns"
            (TRAFFIC_TIMING.green + TRAFFIC_TIMING.yellow)) 31).state
          = TrafficLightState.red ∨
         (updateTrafficLight (createTrafficLightEntity "light_0_ns"
            (TRAFFIC_TIMING.green + TRAFFIC_TIMING.yellow)) 31).state
          = TrafficLightState.yellow)) := by
  have hA : (updateTrafficLight (createTrafficLightEntity "light_0_ew" 0) 31).state
      = TrafficLightState.yellow := by
    norm_num [updateTrafficLight, createTrafficLightEntity, mkTrafficLight,
      TRAFFIC_TIMING, jsMod]
  have hB : (updateTrafficLight (createTrafficLightEntity "light_0_ns"
      (TRAFFIC_TIMING.green + TRAFFIC_TIMING.yellow)) 31).state
      = TrafficLightState.red := by
    norm_num [updateTrafficLight, createTrafficLightEntity, mkTrafficLight,
      TRAFFIC_TIMING, jsMod]
  rw [hA, hB]
  simp

/-- C5 as amended: for two lights with the same durations whose offsets are
exactly `green + yellow` apart, when `green + yellow ≤ red` (the default
timing has `30 + 3 = 33 = red`), after every nonempty update sequence the
two lights are never both green, and whenever one is green the other is
red; but there are instants at which neither is green, so the phases are
not exact complements. -/
theorem c5_amended_never_both_green (g y r a : ℚ) (idA idB : String) (d : ℚ)
    (ds : List ℚ) (A B : TrafficLight)
    (hg : 0 < g) (hy : 0 ≤ y) (hr : g + y ≤ r) (_ha : 0 ≤ a) (_hd : 0 ≤ d)
    (_hds : ∀ e ∈ ds, 0 ≤ e)
    (hA : A = (d :: ds).foldl updateTrafficLight (mkTrafficLight idA a g y r))
    (hB : B = (d :: ds).foldl updateTrafficLight
      (mkTrafficLight idB (a + (g + y)) g y r)) :
    ¬ (A.state = TrafficLightState.green ∧ B.state = TrafficLightState.green) ∧
      (A.state = TrafficLightState.green → B.state = TrafficLightState.red) ∧
      (B.state = TrafficLightState.green → A.state = TrafficLightState.red) := by
  have hc : (0:ℚ) < g + y + r := by linarith
  have hAs : A.state = phaseAt g y r (a + (d :: ds).sum) := by
    rw [hA, foldl_updateTrafficLight_state]; rfl
  have hBs : B.state = phaseAt g y r ((a + (d :: ds).sum) + (g + y)) := by
    rw [hB, foldl_updateTrafficLight_state]
    show phaseAt g y r ((a + (g + y)) + (d :: ds).sum) = _
    congr 1
    ring
  obtain ⟨hu0, huc⟩ := jsMod_bounds (a + (d :: ds).sum) (g + y + r) hc
  rcases jsMod_add_cases (a + (d :: ds).sum) (g + y) (g + y + r) hc
      (by linarith) (by linarith) with ⟨hcase, heq⟩ | ⟨hcase, heq⟩
  · have hBred : B.state = TrafficLightState.red := by
      rw [hBs, phaseAt_red_iff, heq]
      constructor <;> intro hlt <;> linarith
    refine ⟨?_, fun _ => hBred, ?_⟩
    · rintro ⟨-, hBg⟩
      rw [hBred] at hBg
      exact absurd hBg (by simp)
    · intro hBg
      rw [hBred] at hBg
      exact absurd hBg (by simp)
  · have hAred : A.state = TrafficLightState.red := by
      rw [hAs, phaseAt_red_iff]
      constructor <;> intro hlt <;> linarith
    refine ⟨?_, ?_, fun _ => hAred⟩
    · rintro ⟨hAg, -⟩
      rw [hAred] at hAg
      exact absurd hAg (by simp)
    · intro hAg
      rw [hAred] at hAg
      exact absurd hAg (by simp)

/-- Witness for the amended C5 at the default timing, offsets 0 and 33, one
update of 10 s. -/
theorem c5_amended_witness :
    ¬ (((10 :: ([] : List ℚ)).foldl updateTrafficLight
          (mkTrafficLight "light_0_ew" 0 30 3 33)).state = TrafficLightState.green ∧
        ((10 :: ([] : List ℚ)).foldl updateTrafficLight
          (mkTrafficLight "light_0_ns" (0 + (30 + 3)) 30 3 33)).state
          = TrafficLightState.green) :=
  (c5_amended_never_both_green 30 3 33 0 "light_0_ew" "light_0_ns" 10 [] _ _
    (by norm_num) (by norm_num) (by norm_num) le_rfl (by norm_num)
    (by intro e he; simp at he) rfl rfl).1

theorem find?_mapSet_self {α : Type} (key : α → String) (v : α) (l : List α) :
    (mapSet key v l).find? (fun x => key x == key v) = some v := by
  induction l with
  | nil => simp [mapSet]
  | cons x xs ih =>
    by_cases h : key x = key v
    · simp [mapSet, h]
    · simp only [mapSet, if_neg h, List.find?]
      rw [show (key x == key v) = false from beq_eq_false_iff_ne.mpr h]
      exact ih

theorem mem_map_key_mapSet {α : Type} (key : α → String) (v : α) (l : List α) :
    key v ∈ (mapSet key v l).map key := by
  induction l with
  | nil => simp [mapSet]
  | cons x xs ih =>
    by_cases h : key x = key v
    · simp [mapSet, h]
    · simp only [mapSet, if_neg h, List.map_cons, List.mem_cons]
      exact Or.inr ih

/-- C10: a freshly created traffic light reports `'red'` through
`getTrafficLightState` regardless of its timer offset — even though the
transition rule would place an offset-0 light in its green phase — and
the offset influences the reported phase only from the first update
onward, which computes `phaseAt` of `offset + dt`. -/
theorem c10_created_light_reports_red (ts : TrafficSystemState) (id : String)
    (off dt : ℚ) :
    TrafficSystem.getTrafficLightState (TrafficSystem.createTrafficLight id off ts) id
        = some TrafficLightState.red ∧
      (createTrafficLightEntity id off).state = TrafficLightState.red ∧
      phaseAt TRAFFIC_TIMING.green TRAFFIC_TIMING.yellow TRAFFIC_TIMING.red 0
        = TrafficLightState.green ∧
      (updateTrafficLight (createTrafficLightEntity id off) dt).state =
        phaseAt TRAFFIC_TIMING.green TRAFFIC_TIMING.yellow TRAFFIC_TIMING.red
          (off + dt) := by
  refine ⟨?_, rfl, by norm_num [phaseAt, TRAFFIC_TIMING, jsMod], rfl⟩
  have h := find?_mapSet_self (fun l => l.id) (createTrafficLightEntity id off)
    ts.trafficLights
  exact (congrArg (Option.map (fun l => l.state)) h).trans rfl

/-- C6: an unpaused `GameWorld.update` dispatches exactly the registered
systems sorted by ascending priority followed by exactly the active
entities (two-phase); with pairwise-distinct priorities the system order
is strictly ascending, and with unique names (guaranteed by the
name-keyed registry) every system updates exactly once. -/
theorem c6_update_order (w : GameWorld) (dt : ℚ) (hp : w.isPaused = false)
    (hnames : (w.systems.map (fun s => s.name)).Nodup)
    (hprio : (w.systems.map (fun s => s.priority)).Nodup) :
    (GameWorld.update w dt).2 =
        (GameWorld.sortedSystems w).map (fun s => UpdateEvent.sys s.name)
          ++ (w.entities.filter (fun e => e.active)).map
              (fun e => UpdateEvent.ent e.id) ∧
      (GameWorld.sortedSystems w).Perm w.systems ∧
      ((GameWorld.sortedSystems w).map (fun s => s.priority)).Sorted (· < ·) ∧
      ∀ s ∈ w.systems, (GameWorld.update w dt).2.count (UpdateEvent.sys s.name) = 1 := by
  have hperm : (GameWorld.sortedSystems w).Perm w.systems :=
    List.perm_insertionSort sysLE w.systems
  have htrace : (GameWorld.update w dt).2 =
      (GameWorld.sortedSystems w).map (fun s => UpdateEvent.sys s.name)
        ++ (w.entities.filter (fun e => e.active)).map
            (fun e => UpdateEvent.ent e.id) := by
    simp [GameWorld.update, hp]
  refine ⟨htrace, hperm, ?_, ?_⟩
  · have hs1 : (GameWorld.sortedSystems w).Pairwise sysLE :=
      List.sorted_insertionSort sysLE w.systems
    have hle : ((GameWorld.sortedSystems w).map (fun s => s.priority)).Pairwise
        (· ≤ ·) := List.Pairwise.map _ (fun _ _ hab => hab) hs1
    have hnd : ((GameWorld.sortedSystems w).map (fun s => s.priority)).Nodup :=
      (hperm.map (fun s => s.priority)).nodup_iff.mpr hprio
    exact (hle.and hnd).imp fun hab => lt_of_le_of_ne hab.1 hab.2
  · intro s hs
    rw [htrace, List.count_append]
    have hent : ((w.entities.filter (fun e => e.active)).map
        (fun e => UpdateEvent.ent e.id)).count (UpdateEvent.sys s.name) = 0 := by
      rw [List.count_eq_zero]
      intro hmem
      obtain ⟨e, -, habs⟩ := List.mem_map.mp hmem
      exact absurd habs (by simp)
    have hsys : ((GameWorld.sortedSystems w).map
        (fun t => UpdateEvent.sys t.name)).count (UpdateEvent.sys s.name) = 1 := by
      have hinj : Function.Injective UpdateEvent.sys := fun a b hab => by
        injection hab
      have hmapmap : (GameWorld.sortedSystems w).map (fun t => UpdateEvent.sys t.name)
          = ((GameWorld.sortedSystems w).map (fun t => t.name)).map UpdateEvent.sys := by
        rw [List.map_map]
        rfl
      rw [hmapmap, List.count_map_of_injective _ UpdateEvent.sys hinj]
      have hpermnames : ((GameWorld.sortedSystems w).map (fun t => t.name)).Perm
          (w.systems.map (fun t => t.name)) := hperm.map _
      rw [hpermnames.count_eq]
      exact List.count_eq_one_of_mem hnames (List.mem_map_of_mem _ hs)
    rw [hent, hsys]

/-- Witness for C6: a two-system, one-entity world; the trace runs the
priority-10 system before the priority-30 one, then the active entity. -/
theorem c6_witness :
    (GameWorld.update
      { systems := [{ name := "TrafficSystem", priority := 30 },
                    { name := "WeatherSystem", priority := 10 }],
        entities := [{ id := "light_0_ew", type := "traffic_light", active := true }],
        isPaused := false, timeScale := 1, gameTime := 0 } (1/60)).2 =
      [UpdateEvent.sys "WeatherSystem", UpdateEvent.sys "TrafficSystem",
        UpdateEvent.ent "light_0_ew"] :=
  (c6_update_order
    { systems := [{ name := "TrafficSystem", priority := 30 },
                  { name := "WeatherSystem", priority := 10 }],
      entities := [{ id := "light_0_ew", type := "traffic_light", active := true }],
      isPaused := false, timeScale := 1, gameTime := 0 } (1/60) rfl
    (by simp) (by simp)).1.trans rfl

/-- Counterexample to C7: a spawned AI vehicle lives in the traffic system's
private `aiVehicles` registry, but `spawnAIVehicle` never calls
`world.addEntity`, so the `GameWorld` entity registry stays empty — the
vehicle is not "present in the GameWorld entity registry until
despawn". -/
theorem c7_counterexample :
    (TrafficSystem.spawnAIVehicle
        { id := "ai_1", x := 0, z := -500, rotation := 0, speed := 40,
          maxSpeed := 60, vehicleType := "sedan" }
        { world := { systems := [], entities := [], isPaused := false,
                     timeScale := 1, gameTime := 0 },
          trafficLights := [], aiVehicles := [], spawnTimer := 0,
          maxAIVehicles := 20 }).aiVehicles
      = [{ id := "ai_1", x := 0, z := -500, rotation := 0, speed := 40,
           maxSpeed := 60, vehicleType := "sedan" }] ∧
    (TrafficSystem.spawnAIVehicle
        { id := "ai_1", x := 0, z := -500, rotation := 0, speed := 40,
          maxSpeed := 60, vehicleType := "sedan" }
        { world := { systems := [], entities := [], isPaused := false,
                     timeScale := 1, gameTime := 0 },
          trafficLights := [], aiVehicles := [], spawnTimer := 0,
          maxAIVehicles := 20 }).world.entities = [] :=
  ⟨rfl, rfl⟩

/-- C7 as amended: traffic lights are registered in the `GameWorld` entity
registry at creation, while spawned AI vehicles are owned solely by the
traffic system's private `aiVehicles` map — the world registry is left
untouched by a spawn — and remain there until their `dispose` deletes
them from that private map. -/
theorem c7_amended_ownership (ts : TrafficSystemState) (id : String) (off : ℚ)
    (v : AIVehicle) :
    id ∈ (TrafficSystem.createTrafficLight id off ts).world.entities.map
        (fun e => e.id) ∧
      v.id ∈ (TrafficSystem.spawnAIVehicle v ts).aiVehicles.map (fun u => u.id) ∧
      (TrafficSystem.spawnAIVehicle v ts).world = ts.world ∧
      v.id ∉ (TrafficSystem.disposeAIVehicle v.id
        (TrafficSystem.spawnAIVehicle v ts)).aiVehicles.map (fun u => u.id) := by
  refine ⟨?_, ?_, rfl, ?_⟩
  · exact mem_map_key_mapSet (fun e => e.id)
      { id := id, type := "traffic_light", active := true } ts.world.entities
  · exact mem_map_key_mapSet (fun u => u.id) v ts.aiVehicles
  · intro hmem
    obtain ⟨u, humem, huid⟩ := List.mem_map.mp hmem
    have hfil := (List.mem_filter.mp humem).2
    rw [huid] at hfil
    simp at hfil


/-- Counterexample to C9's "deterministically generated placeholder": the
fallback test map depends on the `Math.random()` stream — two different
streams give different building dimensions (height 15 versus 30 for the
first building), so the placeholder is procedurally randomized, not
deterministic. -/
theorem c9_counterexample :
    KoreaMapLoader.generateTestMap "seoul-gangnam"
        (KoreaMapLoader.calculateBBox 37.4979 127.0276 500) (fun _ => 0)
      ≠ KoreaMapLoader.generateTestMap "seoul-gangnam"
        (KoreaMapLoader.calculateBBox 37.4979 127.0276 500) (fun _ => 1/2) := by
  intro h
  have h15 : (KoreaMapLoader.generateTestMap "seoul-gangnam"
      (KoreaMapLoader.calculateBBox 37.4979 127.0276 500)
      (fun _ => 0)).buildings.head?.map (fun b => b.height) = some 15 := by
    norm_num [KoreaMapLoader.generateTestMap, KoreaMapLoader.testBuildingIndices,
      List.enum, List.enumFrom, List.filterMap, List.flatten]
  have h30 : (KoreaMapLoader.generateTestMap "seoul-gangnam"
      (KoreaMapLoader.calculateBBox 37.4979 127.0276 500)
      (fun _ => 1/2)).buildings.head?.map (fun b => b.height) = some 30 := by
    norm_num [KoreaMapLoader.generateTestMap, KoreaMapLoader.testBuildingIndices,
      List.enum, List.enumFrom, List.filterMap, List.flatten]
  rw [h] at h15
  rw [h15] at h30
  have : (15 : ℚ) = 30 := Option.some.inj h30
  norm_num at this

/-- C9 as amended: for a known region key, `loadRegion` never surfaces a
failure — it always resolves with a dataset — and on every failing fetch
outcome (rejection, non-OK response, unparsable body) it logs a warning
and substitutes the synthetic test map (whose road grid is fixed but
whose building dimensions come from the random stream). -/
theorem c9_amended_fallback_never_errors (key : String) (radius : ℚ)
    (rand : ℕ → ℚ) (fetch : KoreaMapLoader.FetchResult) (entry : String × Region)
    (hfound : KOREA_REGIONS.find? (fun p => p.1 == key) = some entry) :
    (∃ result : MapData × Bool,
        KoreaMapLoader.loadRegion key radius fetch rand = .ok result) ∧
      (fetch.failed = true →
        KoreaMapLoader.loadRegion key radius fetch rand =
          .ok (KoreaMapLoader.generateTestMap key
            (KoreaMapLoader.calculateBBox entry.2.lat entry.2.lon radius) rand,
            true)) := by
  have hcompute : ∀ f : KoreaMapLoader.FetchResult, f.failed = true →
      KoreaMapLoader.loadRegion key radius f rand =
        .ok (KoreaMapLoader.generateTestMap key
          (KoreaMapLoader.calculateBBox entry.2.lat entry.2.lon radius) rand,
          true) := by
    intro f hf
    cases f with
    | rejected => simp [KoreaMapLoader.loadRegion, hfound]
    | response ok status body =>
      cases ok with
      | false => simp [KoreaMapLoader.loadRegion, hfound]
      | true =>
        cases body with
        | malformed => simp [KoreaMapLoader.loadRegion, hfound]
        | parsed osm => simp [KoreaMapLoader.FetchResult.failed] at hf
  refine ⟨?_, hcompute fetch⟩
  by_cases hf : fetch.failed = true
  · exact ⟨_, hcompute fetch hf⟩
  · cases fetch with
    | rejected => simp [KoreaMapLoader.FetchResult.failed] at hf
    | response ok status body =>
      cases ok with
      | false => simp [KoreaMapLoader.FetchResult.failed] at hf
      | true =>
        cases body with
        | malformed => simp [KoreaMapLoader.FetchResult.failed] at hf
        | parsed osm =>
          exact ⟨(KoreaMapLoader.parseOSMData osm entry.2.lat entry.2.lon key
              (KoreaMapLoader.calculateBBox entry.2.lat entry.2.lon radius) rand,
              false), by simp [KoreaMapLoader.loadRegion, hfound]⟩

/-- Witness for the amended C9: the Gangnam region with a rejected fetch
falls back to the synthetic test map with a logged warning. -/
theorem c9_amended_witness :
    KoreaMapLoader.loadRegion "seoul-gangnam" 500 KoreaMapLoader.FetchResult.rejected
        (fun _ => 0) =
      .ok (KoreaMapLoader.generateTestMap "seoul-gangnam"
        (KoreaMapLoader.calculateBBox 37.4979 127.0276 500) (fun _ => 0), true) :=
  (c9_amended_fallback_never_errors "seoul-gangnam" 500 (fun _ => 0)
    KoreaMapLoader.FetchResult.rejected
    ("seoul-gangnam", { lat := 37.4979, lon := 127.0276, name := "강남역" }) rfl).2 rfl
